import Mathlib

/-!
Verification of the pumpdev.io client example scripts.

The repository is a set of JavaScript client scripts that build transactions
through a hosted HTTP API, sign them locally and submit them to a blockchain
RPC endpoint or a Jito block-engine relay.  The definitions below are a
shallow embedding of the control flow of those scripts: each workflow is a
pure function from the responses of its external collaborators (HTTP
responses, send results, relay answers) to the observable outcome of the
script (what was printed, what was signed, what was submitted, whether an
exception escaped).  Thrown JavaScript exceptions are modelled by
`Except String`; JavaScript truthiness on optional string and numeric
fields is modelled explicitly.
-/

namespace PumpDev

/-- JavaScript truthiness of an optional string field: absent (undefined or
null) and the empty string are falsy, every other string is truthy. -/
def jsTruthy : Option String → Bool
  | none => false
  | some s => s ≠ ""

/-- JavaScript truthiness of an optional numeric field: absent and zero are
falsy (the scripts hold SOL figures in ordinary JS numbers). -/
def numTruthy : Option ℚ → Bool
  | none => false
  | some v => v ≠ 0

/-- Substring test on character lists, used to model the JavaScript
`String.prototype.includes` call in the claim-fees error branch. -/
def listContainsSub (p : List Char) : List Char → Bool
  | [] => p.isEmpty
  | c :: t => p.isPrefixOf (c :: t) || listContainsSub p t

/-- Substring test on strings, the model of `s.includes(p)`. -/
def strContainsSub (s p : String) : Bool :=
  listContainsSub p.toList s.toList

/-- The JavaScript `a || b` fallback on an optional string result field:
a missing or empty string falls back to the default. -/
def jsOrString (v : Option String) (d : String) : String :=
  match v with
  | some s => if s = "" then d else s
  | none => d

/-- A locally held keypair.  The scripts never inspect key material, so a
keypair is identified abstractly. -/
structure Keypair where
  id : Nat
deriving DecidableEq, Repr

/--
One entry of the `transactions` array returned by the create-bundle build
endpoint: a base58-encoded transaction, the list of role names whose
signatures it requires, and a human-readable description
(`create-token.js`, `createTokenWithMultipleBuyers`).
-/
structure BundleTxInfo where
  transaction : String
  signers : List String
  description : String
deriving DecidableEq, Repr

/-- A signed, re-serialized bundle transaction: the payload forwarded to the
relay together with the keypairs that were applied to it. -/
structure SignedTx where
  payload : String
  signedWith : List Keypair
deriving DecidableEq, Repr

/--
Resolution of one declared signer role against the local wallet map, from
`createTokenWithMultipleBuyers` in `create-token.js` (line 512) and its
duplicate in `src/unnamed/part_002` (line 385):
`(s) => (s === 'mint' ? mintKeypair : wallets[s])`.
The wallet object `{creator, buyer1, buyer2, buyer3}` is modelled as an
association list; a dynamic property lookup that misses yields `undefined`,
that is `none`.
-/
def resolveRole (wallets : List (String × Keypair)) (mintKeypair : Keypair)
    (s : String) : Option Keypair :=
  if s = "mint" then some mintKeypair else wallets.lookup s

/--
The signer list passed to `tx.sign(...)` in the multi-buyer bundle path:
`txInfo.signers.map(resolveRole).filter(Boolean)`.  The `.filter(Boolean)`
step discards the `undefined` entries produced by unrecognized role names.
-/
def resolveSigners (wallets : List (String × Keypair)) (mintKeypair : Keypair)
    (roles : List String) : List Keypair :=
  ((roles.map (resolveRole wallets mintKeypair)).filterMap id)

/--
The signing step of `createTokenWithMultipleBuyers`
(`result.transactions.map(...)`): every returned transaction is
deserialized, signed with its resolved signer list and re-serialized; no
transaction is dropped and no error is raised on an unresolved role.
-/
def signBundleTransactions (wallets : List (String × Keypair))
    (mintKeypair : Keypair) (txs : List BundleTxInfo) : List SignedTx :=
  txs.map (fun t =>
    { payload := t.transaction
      signedWith := resolveSigners wallets mintKeypair t.signers })

/--
C1: in the multi-buyer create-bundle signing path, the keypair list passed
to the signing call is exactly the keypairs of the role names that resolve
against the local wallet map (with the name `mint` mapping to the mint
keypair), in declared order; role names that do not resolve are silently
dropped, so the signer list is unchanged if the unresolvable names are
removed beforehand; and every transaction — including one whose role list
contains an unrecognized name — is still signed and serialized into the
bundle, with no error raised.
-/
theorem resolveSigners_silently_drops_unknown_roles
    (wallets : List (String × Keypair)) (mintKeypair : Keypair) :
    (∀ roles : List String,
      resolveSigners wallets mintKeypair roles
        = roles.filterMap (resolveRole wallets mintKeypair)) ∧
    (∀ roles : List String,
      resolveSigners wallets mintKeypair roles
        = resolveSigners wallets mintKeypair
            (roles.filter (fun s => (resolveRole wallets mintKeypair s).isSome))) ∧
    (∀ txs : List BundleTxInfo,
      (signBundleTransactions wallets mintKeypair txs).map SignedTx.payload
          = txs.map BundleTxInfo.transaction ∧
      (signBundleTransactions wallets mintKeypair txs).length = txs.length) := by
  refine ⟨?_, ?_, ?_⟩
  · intro roles
    simp [resolveSigners, List.filterMap_map]
  · intro roles
    induction roles with
    | nil => rfl
    | cons r rs ih =>
      by_cases h : (resolveRole wallets mintKeypair r).isSome
      · obtain ⟨k, hk⟩ := Option.isSome_iff_exists.mp h
        simp [resolveSigners, List.filter_cons, h, hk] at ih ⊢
        exact ih
      · have hn : resolveRole wallets mintKeypair r = none :=
          Option.not_isSome_iff_eq_none.mp (by simpa using h)
        simp [resolveSigners, List.filter_cons, h, hn] at ih ⊢
        exact ih
  · intro txs
    constructor
    · simp [signBundleTransactions]
    · simp [signBundleTransactions]

/-! ### Jito bundle submission (`sendJitoBundle`) -/

/-- The fixed relay endpoint list of `create-token.js` and
`src/unnamed/part_002` (`JITO_ENDPOINTS`). -/
def JITO_ENDPOINTS : List String :=
  ["https://mainnet.block-engine.jito.wtf",
   "https://amsterdam.mainnet.block-engine.jito.wtf",
   "https://frankfurt.mainnet.block-engine.jito.wtf",
   "https://ny.mainnet.block-engine.jito.wtf",
   "https://tokyo.mainnet.block-engine.jito.wtf"]

/-- The parsed JSON-RPC answer of one relay endpoint: an optional `result`
field (the bundle identifier) and an optional `error` message. -/
structure JitoData where
  result : Option String
  error : Option String
deriving DecidableEq, Repr

/-- One relay attempt either throws (network failure, `Except.error`) or
yields a parsed answer. -/
abbrev JitoAttempt := Except Unit JitoData

/-- Whether a relay attempt fails: either the fetch threw, or the parsed
answer carries no truthy `result` field. -/
def jitoAttemptFails : JitoAttempt → Bool
  | .error _ => true
  | .ok d => !jsTruthy d.result

/--
The endpoint loop of `sendJitoBundle` (`create-token.js` lines 130-162):
walk the attempts in endpoint-list order; a thrown fetch is caught and the
next endpoint is tried; the first answer with a truthy `result` ends the
loop.  Returns the bundle identifier found (if any) together with the
number of requests issued.
-/
def sendJitoBundleLoop : List JitoAttempt → Option String × Nat
  | [] => (none, 0)
  | a :: rest =>
    match a with
    | .error _ =>
      let r := sendJitoBundleLoop rest
      (r.fst, r.snd + 1)
    | .ok d =>
      if jsTruthy d.result then (d.result, 1)
      else
        let r := sendJitoBundleLoop rest
        (r.fst, r.snd + 1)

/-- The value `sendJitoBundle` resolves with. -/
structure BundleResult where
  success : Bool
  bundleId : Option String
  error : Option String
deriving DecidableEq, Repr

/--
`sendJitoBundle`: success with the first obtained bundle identifier, or a
failure value (not a thrown exception) once every endpoint has been tried.
The attempt list is indexed in `JITO_ENDPOINTS` order.
-/
def sendJitoBundle (attempts : List JitoAttempt) : BundleResult :=
  match (sendJitoBundleLoop attempts).fst with
  | some id => { success := true, bundleId := some id, error := none }
  | none => { success := false, bundleId := none,
              error := some "All Jito endpoints failed" }

/-- Number of relay requests `sendJitoBundle` issues for a given attempt
environment. -/
def sendJitoBundleRequests (attempts : List JitoAttempt) : Nat :=
  (sendJitoBundleLoop attempts).snd

theorem sendJitoBundleLoop_all_fail {attempts : List JitoAttempt}
    (h : ∀ a ∈ attempts, jitoAttemptFails a) :
    sendJitoBundleLoop attempts = (none, attempts.length) := by
  induction attempts with
  | nil => rfl
  | cons a rest ih =>
    have ha : jitoAttemptFails a := h a (List.mem_cons_self a rest)
    have hrest : ∀ b ∈ rest, jitoAttemptFails b :=
      fun b hb => h b (List.mem_cons_of_mem a hb)
    cases a with
    | error e => simp [sendJitoBundleLoop, ih hrest]
    | ok d =>
      have hd : jsTruthy d.result = false := by
        simpa [jitoAttemptFails] using ha
      simp [sendJitoBundleLoop, hd, ih hrest]

/--
C4: the bundle submitter tries the relay endpoints strictly in list order:
if every attempt before position `k` fails (thrown or answered without a
result) and the attempt at position `k` answers with a truthy `result`,
then it returns a success result carrying that bundle identifier after
exactly `k + 1` requests (no further requests after the first success);
and if every attempt fails, it returns — rather than throws — the failure
value with error message "All Jito endpoints failed" after trying every
endpoint.
-/
theorem sendJitoBundle_first_success_then_stops
    (pre rest : List JitoAttempt) (d : JitoData)
    (hpre : ∀ a ∈ pre, jitoAttemptFails a)
    (hd : jsTruthy d.result = true) :
    (sendJitoBundle (pre ++ .ok d :: rest)
        = { success := true, bundleId := d.result, error := none } ∧
     sendJitoBundleRequests (pre ++ .ok d :: rest) = pre.length + 1) ∧
    ((∀ a ∈ pre, jitoAttemptFails a) →
      sendJitoBundle pre
          = { success := false, bundleId := none,
              error := some "All Jito endpoints failed" } ∧
      sendJitoBundleRequests pre = pre.length) := by
  have hloop : sendJitoBundleLoop (pre ++ .ok d :: rest)
      = (d.result, pre.length + 1) := by
    induction pre with
    | nil => simp [sendJitoBundleLoop, hd]
    | cons a as ih =>
      have ha : jitoAttemptFails a := hpre a (List.mem_cons_self a as)
      have has : ∀ b ∈ as, jitoAttemptFails b :=
        fun b hb => hpre b (List.mem_cons_of_mem a hb)
      have ih2 := ih has
      cases a with
      | error e => simp [sendJitoBundleLoop, ih2]
      | ok d2 =>
        have hd2 : jsTruthy d2.result = false := by
          simpa [jitoAttemptFails] using ha
        simp [sendJitoBundleLoop, hd2, ih2]
  constructor
  · constructor
    · obtain ⟨id, hid⟩ : ∃ id, d.result = some id := by
        cases hres : d.result with
        | none => rw [hres] at hd; simp [jsTruthy] at hd
        | some s => exact ⟨s, rfl⟩
      simp [sendJitoBundle, hloop, hid]
    · simp [sendJitoBundleRequests, hloop]
  · intro hall
    have h2 := sendJitoBundleLoop_all_fail hall
    exact ⟨by simp [sendJitoBundle, h2], by simp [sendJitoBundleRequests, h2]⟩

/-- Witness for C4 at a concrete environment: the first two endpoints fail
(one thrown, one error answer), the third succeeds with bundle id "b1";
two failing attempts alone yield the all-failed result. -/
theorem sendJitoBundle_first_success_then_stops_witness :
    (sendJitoBundle [.error (), .ok ⟨none, some "rate limited"⟩,
        .ok ⟨some "b1", none⟩, .error ()]
        = { success := true, bundleId := some "b1", error := none } ∧
     sendJitoBundleRequests [.error (), .ok ⟨none, some "rate limited"⟩,
        .ok ⟨some "b1", none⟩, .error ()] = 3) ∧
    ((∀ a ∈ ([.error (), .ok ⟨none, some "rate limited"⟩] : List JitoAttempt),
        jitoAttemptFails a) →
      sendJitoBundle [.error (), .ok ⟨none, some "rate limited"⟩]
          = { success := false, bundleId := none,
              error := some "All Jito endpoints failed" } ∧
      sendJitoBundleRequests [.error (), .ok ⟨none, some "rate limited"⟩] = 2) := by
  exact sendJitoBundle_first_success_then_stops
    [.error (), .ok ⟨none, some "rate limited"⟩] [.error ()]
    ⟨some "b1", none⟩ (by decide) (by decide)

/-! ### Single-transaction workflows (buy, sell, transfer, claim, create) -/

/-- An HTTP response of a build endpoint: the status code and the `error`
field of the JSON error payload (absent on success). -/
structure BuildResponse where
  status : Nat
  error : Option String
deriving DecidableEq, Repr

/-- The observable side effects of one workflow run: whether an API error
was printed, whether the no-claimable-fees notice was printed, how many
transactions were signed, and how many submission requests were issued. -/
structure Trace where
  apiErrorPrinted : Bool
  noFeesPrinted : Bool
  txsSigned : Nat
  sendCalls : Nat
deriving DecidableEq, Repr

/--
`buyToken` from `buy-sell.js` (lines 35-105), from the build response on:
a non-200 response prints the error payload and resolves with `null`;
otherwise the transaction is deserialized, signed and sent
(`sendRes`), a thrown send is caught and resolves with `null`, and a
confirmation error (`confirmErr`) also resolves with `null`.
-/
def buyToken (resp : BuildResponse) (sendRes : Except String String)
    (confirmErr : Option String) : Except String (Option String) × Trace :=
  if resp.status ≠ 200 then
    (.ok none, ⟨true, false, 0, 0⟩)
  else
    match sendRes with
    | .error _ => (.ok none, ⟨false, false, 1, 1⟩)
    | .ok sig =>
      match confirmErr with
      | some _ => (.ok none, ⟨false, false, 1, 1⟩)
      | none => (.ok (some sig), ⟨false, false, 1, 1⟩)

/--
`sellToken` from `buy-sell.js` (lines 110-175): like the buy path but the
signature is returned directly after the send, with no confirmation check.
-/
def sellToken (resp : BuildResponse) (sendRes : Except String String) :
    Except String (Option String) × Trace :=
  if resp.status ≠ 200 then
    (.ok none, ⟨true, false, 0, 0⟩)
  else
    match sendRes with
    | .error _ => (.ok none, ⟨false, false, 1, 1⟩)
    | .ok sig => (.ok (some sig), ⟨false, false, 1, 1⟩)

/--
`transferSol` from `transfer.js` (lines 33-87): non-200 prints and resolves
`null`; otherwise sign, send and await confirmation inside the try block
(a throw from either is caught and resolves `null`).
-/
def transferSol (resp : BuildResponse) (sendRes : Except String String)
    (confirmRes : Except String Unit) : Except String (Option String) × Trace :=
  if resp.status ≠ 200 then
    (.ok none, ⟨true, false, 0, 0⟩)
  else
    match sendRes with
    | .error _ => (.ok none, ⟨false, false, 1, 1⟩)
    | .ok sig =>
      match confirmRes with
      | .error _ => (.ok none, ⟨false, false, 1, 1⟩)
      | .ok _ => (.ok (some sig), ⟨false, false, 1, 1⟩)

/--
`transferAllSol` from `transfer.js` (lines 92-152): same control flow as
`transferSol` after the build response (the JSON envelope is parsed instead
of raw bytes, which does not change the abort behaviour).
-/
def transferAllSol (resp : BuildResponse) (sendRes : Except String String)
    (confirmRes : Except String Unit) : Except String (Option String) × Trace :=
  if resp.status ≠ 200 then
    (.ok none, ⟨true, false, 0, 0⟩)
  else
    match sendRes with
    | .error _ => (.ok none, ⟨false, false, 1, 1⟩)
    | .ok sig =>
      match confirmRes with
      | .error _ => (.ok none, ⟨false, false, 1, 1⟩)
      | .ok _ => (.ok (some sig), ⟨false, false, 1, 1⟩)

/-- The test `error.error?.includes('No claimable fees')` of the claim-fees
error branch: an absent `error` field is falsy under optional chaining. -/
def noClaimableFees (errField : Option String) : Bool :=
  match errField with
  | some e => strContainsSub e "No claimable fees"
  | none => false

/--
`claimFees` from `claim-fees.js` (lines 34-103) and its fee-sharing variant
in `src/unnamed/part_000` (lines 50-127; the optional `mint` request field
does not change the control flow): a non-200 response whose error text
contains "No claimable fees" prints the no-fees notice and returns; any
other non-200 response prints an API error and returns; otherwise the
transaction is signed and sent, a thrown send or confirmation being caught.
The function always resolves (returns `undefined`), never throws.
-/
def claimFees (resp : BuildResponse) (sendRes : Except String String)
    (confirmRes : Except String Unit) : Except String Unit × Trace :=
  if resp.status ≠ 200 then
    if noClaimableFees resp.error then
      (.ok (), ⟨false, true, 0, 0⟩)
    else
      (.ok (), ⟨true, false, 0, 0⟩)
  else
    match sendRes with
    | .error _ => (.ok (), ⟨false, false, 1, 1⟩)
    | .ok _ =>
      match confirmRes with
      | .error _ => (.ok (), ⟨false, false, 1, 1⟩)
      | .ok _ => (.ok (), ⟨false, false, 1, 1⟩)

/-- The JSON envelope of the create endpoint. -/
structure CreateResponse where
  status : Nat
  error : Option String
  mint : String
  mintSecretKey : String
  transaction : String
deriving DecidableEq, Repr

/--
`createTokenOnly` from `create-token.js` (lines 204-253), from the build
response on: a non-200 response throws
`new Error(result.error || "API request failed")` — it does not print and
return; on success the single transaction is signed with the creator and
mint keypairs and submitted through `sendJitoBundle` (whose requests are
counted as the submission calls).
-/
def createTokenOnly (resp : CreateResponse) (attempts : List JitoAttempt) :
    Except String Unit × Trace :=
  if resp.status ≠ 200 then
    (.error (jsOrString resp.error "API request failed"), ⟨false, false, 0, 0⟩)
  else
    (.ok (), ⟨false, false, 1, sendJitoBundleRequests attempts⟩)

/--
C2 (counterexample): the create workflow does not return quietly on a
non-200 build response — at status 400 with error payload "Invalid symbol"
it throws an exception carrying that payload, so the claim that every
build-endpoint workflow "returns without throwing" is false for the create
path (nothing is signed or submitted, as the rest of the claim states).
-/
theorem createTokenOnly_throws_on_build_error :
    createTokenOnly ⟨400, some "Invalid symbol", "", "", ""⟩ []
      = (.error "Invalid symbol", ⟨false, false, 0, 0⟩) := by
  rfl

/--
C2 (amended): for the buy, sell, transfer, transfer-all and claim
workflows a non-200 build response makes the function return without
throwing, without signing and without submitting, only printing the error
payload (the claim workflow printing either the no-fees notice or the API
error); the create workflow instead throws an exception carrying the error
payload (caught only by the top-level handler), likewise without signing
or submitting anything.
-/
theorem build_error_aborts_without_submission
    (resp : BuildResponse) (sendRes : Except String String)
    (confirmErr : Option String) (confirmRes : Except String Unit)
    (h : resp.status ≠ 200) :
    buyToken resp sendRes confirmErr = (.ok none, ⟨true, false, 0, 0⟩) ∧
    sellToken resp sendRes = (.ok none, ⟨true, false, 0, 0⟩) ∧
    transferSol resp sendRes confirmRes = (.ok none, ⟨true, false, 0, 0⟩) ∧
    transferAllSol resp sendRes confirmRes = (.ok none, ⟨true, false, 0, 0⟩) ∧
    ((claimFees resp sendRes confirmRes).fst = .ok () ∧
      (claimFees resp sendRes confirmRes).snd.txsSigned = 0 ∧
      (claimFees resp sendRes confirmRes).snd.sendCalls = 0) ∧
    (∀ (cresp : CreateResponse) (attempts : List JitoAttempt),
      cresp.status ≠ 200 →
      createTokenOnly cresp attempts
        = (.error (jsOrString cresp.error "API request failed"),
           ⟨false, false, 0, 0⟩)) := by
  refine ⟨?_, ?_, ?_, ?_, ?_, ?_⟩
  · simp [buyToken, h]
  · simp [sellToken, h]
  · simp [transferSol, h]
  · simp [transferAllSol, h]
  · by_cases hn : noClaimableFees resp.error <;> simp [claimFees, h, hn]
  · intro cresp attempts hc
    simp [createTokenOnly, hc]

/-- Witness for the amended C2 at a concrete non-200 environment. -/
theorem build_error_aborts_without_submission_witness :
    ((400 : Nat) ≠ 200) ∧
    (buyToken ⟨400, some "boom"⟩ (.ok "sig") none
        = (.ok none, ⟨true, false, 0, 0⟩) ∧
     sellToken ⟨400, some "boom"⟩ (.ok "sig")
        = (.ok none, ⟨true, false, 0, 0⟩) ∧
     transferSol ⟨400, some "boom"⟩ (.ok "sig") (.ok ())
        = (.ok none, ⟨true, false, 0, 0⟩) ∧
     transferAllSol ⟨400, some "boom"⟩ (.ok "sig") (.ok ())
        = (.ok none, ⟨true, false, 0, 0⟩) ∧
     ((claimFees ⟨400, some "boom"⟩ (.ok "sig") (.ok ())).fst = .ok () ∧
      (claimFees ⟨400, some "boom"⟩ (.ok "sig") (.ok ())).snd.txsSigned = 0 ∧
      (claimFees ⟨400, some "boom"⟩ (.ok "sig") (.ok ())).snd.sendCalls = 0) ∧
     (∀ (cresp : CreateResponse) (attempts : List JitoAttempt),
       cresp.status ≠ 200 →
       createTokenOnly cresp attempts
         = (.error (jsOrString cresp.error "API request failed"),
            ⟨false, false, 0, 0⟩))) :=
  ⟨by decide,
   build_error_aborts_without_submission ⟨400, some "boom"⟩ (.ok "sig")
     none (.ok ()) (by decide)⟩

/--
C9: in the single-claim workflow a non-200 build response whose error body
contains the substring "No claimable fees" is a benign no-op — the no-fees
notice is printed, no API error is printed, nothing is signed and nothing
is submitted, and the function returns normally; every other non-200
response instead prints the API error (still without signing or
submitting).
-/
theorem claimFees_no_claimable_fees_is_benign
    (resp : BuildResponse) (sendRes : Except String String)
    (confirmRes : Except String Unit) (h : resp.status ≠ 200) :
    (noClaimableFees resp.error = true →
      claimFees resp sendRes confirmRes = (.ok (), ⟨false, true, 0, 0⟩)) ∧
    (noClaimableFees resp.error = false →
      claimFees resp sendRes confirmRes = (.ok (), ⟨true, false, 0, 0⟩)) := by
  constructor
  · intro hn; simp [claimFees, h, hn]
  · intro hn; simp [claimFees, h, hn]

/-- Witness for C9: a 400 response whose error body contains the no-fees
text takes the benign branch; with an unrelated error body the API error
is printed instead. -/
theorem claimFees_no_claimable_fees_is_benign_witness :
    ((400 : Nat) ≠ 200) ∧
    claimFees ⟨400, some "No claimable fees for this wallet"⟩
        (.ok "sig") (.ok ()) = (.ok (), ⟨false, true, 0, 0⟩) ∧
    claimFees ⟨400, some "server exploded"⟩
        (.ok "sig") (.ok ()) = (.ok (), ⟨true, false, 0, 0⟩) :=
  ⟨by decide,
   (claimFees_no_claimable_fees_is_benign
     ⟨400, some "No claimable fees for this wallet"⟩ (.ok "sig") (.ok ())
     (by decide)).1 (by decide),
   (claimFees_no_claimable_fees_is_benign
     ⟨400, some "server exploded"⟩ (.ok "sig") (.ok ())
     (by decide)).2 (by decide)⟩

/-! ### Bundle sell (`sellBundleFast`, `buy-sell.js` lines 183-261) -/

/-- One local selling account passed to `sellBundleFast`: a wallet name and
its keypair. -/
structure SellAccount where
  name : String
  keypair : Keypair
deriving DecidableEq, Repr

/-- One entry of the `transactions` array of the trade-bundle response:
either a built base58 transaction or an error text for that account. -/
structure SellTxEntry where
  name : String
  transaction : Option String
  error : Option String
deriving DecidableEq, Repr

/-- The `stats` object of the trade-bundle response. -/
structure BundleStats where
  success : Nat
  total : Nat
  durationMs : Nat
deriving DecidableEq, Repr

/-- The trade-bundle build response. -/
structure SellBundleResponse where
  status : Nat
  error : Option String
  transactions : List SellTxEntry
  stats : BundleStats
deriving DecidableEq, Repr

/-- What happened to one entry of the bundle-sell loop. -/
inductive SellEntryOutcome
  | buildFailed (name : String)
  | noMatchingAccount (name : String)
  | sendFailed (name msg : String)
  | sent (name sig : String)
deriving DecidableEq, Repr

/-- Whether the loop reached the sign-and-send attempt for this entry. -/
def SellEntryOutcome.sendAttempted : SellEntryOutcome → Bool
  | .sendFailed _ _ => true
  | .sent _ _ => true
  | _ => false

/-- The name/signature pair pushed for a successful send, if any. -/
def SellEntryOutcome.sentPair : SellEntryOutcome → Option (String × String)
  | .sent n s => some (n, s)
  | _ => none

/--
The body of the `for (const txInfo of result.transactions)` loop of
`sellBundleFast`: an entry without a truthy `transaction` field logs its
error and is skipped; an entry whose name matches no local account is
skipped; otherwise the transaction is deserialized, signed with the
matching keypair and sent (`sendRes`, keyed by account name; a thrown send
is caught per entry).
-/
def processSellEntry (accounts : List SellAccount)
    (sendRes : String → Except String String) (e : SellTxEntry) :
    SellEntryOutcome :=
  if !jsTruthy e.transaction then .buildFailed e.name
  else
    match accounts.find? (fun a => a.name == e.name) with
    | none => .noMatchingAccount e.name
    | some _ =>
      match sendRes e.name with
      | .error m => .sendFailed e.name m
      | .ok sig => .sent e.name sig

/-- The sequential sign-and-send loop over the response entries. -/
def sellBundleLoop (accounts : List SellAccount)
    (sendRes : String → Except String String) (entries : List SellTxEntry) :
    List SellEntryOutcome :=
  entries.map (processSellEntry accounts sendRes)

/--
`sellBundleFast`: a non-200 response prints the error payload and resolves
with `null`; otherwise the loop runs over every response entry and the
workflow resolves with the collected name/signature pairs, reporting their
count in the final log line.
-/
def sellBundleFast (accounts : List SellAccount) (resp : SellBundleResponse)
    (sendRes : String → Except String String) :
    Except String (Option (List (String × String))) × List SellEntryOutcome :=
  if resp.status ≠ 200 then (.ok none, [])
  else
    let outcomes := sellBundleLoop accounts sendRes resp.transactions
    (.ok (some (outcomes.filterMap SellEntryOutcome.sentPair)), outcomes)

theorem sellBundleLoop_counts (accounts : List SellAccount)
    (sendRes : String → Except String String) (entries : List SellTxEntry)
    (hmatch : ∀ e ∈ entries, jsTruthy e.transaction →
      (accounts.find? (fun a => a.name == e.name)).isSome)
    (hsend : ∀ n, ∃ s, sendRes n = .ok s) :
    (sellBundleLoop accounts sendRes entries).countP
        SellEntryOutcome.sendAttempted
      = entries.countP (fun e => jsTruthy e.transaction) ∧
    ((sellBundleLoop accounts sendRes entries).filterMap
        SellEntryOutcome.sentPair).length
      = entries.countP (fun e => jsTruthy e.transaction) := by
  induction entries with
  | nil => exact ⟨rfl, rfl⟩
  | cons e rest ih =>
    have hrest : ∀ x ∈ rest, jsTruthy x.transaction →
        (accounts.find? (fun a => a.name == x.name)).isSome :=
      fun x hx => hmatch x (List.mem_cons_of_mem e hx)
    obtain ⟨ih1, ih2⟩ := ih hrest
    by_cases ht : jsTruthy e.transaction
    · have hf := hmatch e (List.mem_cons_self e rest) ht
      obtain ⟨a, ha⟩ := Option.isSome_iff_exists.mp hf
      obtain ⟨s, hs⟩ := hsend e.name
      have hpe : processSellEntry accounts sendRes e = .sent e.name s := by
        simp [processSellEntry, ht, ha, hs]
      constructor
      · simp [sellBundleLoop, List.countP_cons, hpe, ht,
          SellEntryOutcome.sendAttempted] at ih1 ⊢
        exact ih1
      · simp [sellBundleLoop, List.countP_cons, hpe, ht,
          SellEntryOutcome.sentPair] at ih2 ⊢
        exact ih2
    · have hpe : processSellEntry accounts sendRes e = .buildFailed e.name := by
        simp [processSellEntry, ht]
      constructor
      · simp [sellBundleLoop, List.countP_cons, hpe, ht,
          SellEntryOutcome.sendAttempted] at ih1 ⊢
        exact ih1
      · simp [sellBundleLoop, List.countP_cons, hpe, ht,
          SellEntryOutcome.sentPair] at ih2 ⊢
        exact ih2

/--
C3: in the bundle-sell workflow, when the build response carries `M`
entries with a successfully built transaction out of `N` (the others
carrying an error), every response entry names a requested account, and
the network accepts every submitted transaction, then sign-and-send is
attempted for exactly the `M` built entries (the loop visits every entry,
in order) and the workflow resolves with — and reports the length of —
a signature list of exactly `M` entries.
-/
theorem sellBundleFast_attempts_exactly_built_entries
    (accounts : List SellAccount) (resp : SellBundleResponse)
    (sendRes : String → Except String String)
    (hstatus : resp.status = 200)
    (hmatch : ∀ e ∈ resp.transactions, jsTruthy e.transaction →
      (accounts.find? (fun a => a.name == e.name)).isSome)
    (hsend : ∀ n, ∃ s, sendRes n = .ok s) :
    (sellBundleFast accounts resp sendRes).snd
        = resp.transactions.map (processSellEntry accounts sendRes) ∧
    (sellBundleFast accounts resp sendRes).snd.length
        = resp.transactions.length ∧
    (sellBundleFast accounts resp sendRes).snd.countP
        SellEntryOutcome.sendAttempted
      = resp.transactions.countP (fun e => jsTruthy e.transaction) ∧
    ∃ sigs : List (String × String),
      (sellBundleFast accounts resp sendRes).fst = .ok (some sigs) ∧
      sigs.length = resp.transactions.countP (fun e => jsTruthy e.transaction) := by
  obtain ⟨h1, h2⟩ := sellBundleLoop_counts accounts sendRes resp.transactions
    hmatch hsend
  refine ⟨?_, ?_, ?_, ?_⟩
  · simp [sellBundleFast, hstatus, sellBundleLoop]
  · simp [sellBundleFast, hstatus, sellBundleLoop]
  · simpa [sellBundleFast, hstatus] using h1
  · refine ⟨(sellBundleLoop accounts sendRes resp.transactions).filterMap
      SellEntryOutcome.sentPair, ?_, h2⟩
    simp [sellBundleFast, hstatus]

/-- Witness for C3: three requested accounts, two entries built and one
carrying a build error; both built entries are signed and sent and the
reported signature list has exactly two entries. -/
theorem sellBundleFast_attempts_exactly_built_entries_witness :
    ((200 : Nat) = 200) ∧
    ((sellBundleFast
        [⟨"creator", ⟨0⟩⟩, ⟨"bundle1", ⟨1⟩⟩, ⟨"bundle2", ⟨2⟩⟩]
        ⟨200, none,
          [⟨"creator", some "tx1", none⟩,
           ⟨"bundle1", none, some "insufficient balance"⟩,
           ⟨"bundle2", some "tx3", none⟩],
          ⟨2, 3, 41⟩⟩
        (fun n => .ok (String.append "sig-" n))).snd
        = ([⟨"creator", some "tx1", none⟩,
            ⟨"bundle1", none, some "insufficient balance"⟩,
            ⟨"bundle2", some "tx3", none⟩] : List SellTxEntry).map
            (processSellEntry
              [⟨"creator", ⟨0⟩⟩, ⟨"bundle1", ⟨1⟩⟩, ⟨"bundle2", ⟨2⟩⟩]
              (fun n => .ok (String.append "sig-" n))) ∧
     (sellBundleFast
        [⟨"creator", ⟨0⟩⟩, ⟨"bundle1", ⟨1⟩⟩, ⟨"bundle2", ⟨2⟩⟩]
        ⟨200, none,
          [⟨"creator", some "tx1", none⟩,
           ⟨"bundle1", none, some "insufficient balance"⟩,
           ⟨"bundle2", some "tx3", none⟩],
          ⟨2, 3, 41⟩⟩
        (fun n => .ok (String.append "sig-" n))).snd.length = 3 ∧
     (sellBundleFast
        [⟨"creator", ⟨0⟩⟩, ⟨"bundle1", ⟨1⟩⟩, ⟨"bundle2", ⟨2⟩⟩]
        ⟨200, none,
          [⟨"creator", some "tx1", none⟩,
           ⟨"bundle1", none, some "insufficient balance"⟩,
           ⟨"bundle2", some "tx3", none⟩],
          ⟨2, 3, 41⟩⟩
        (fun n => .ok (String.append "sig-" n))).snd.countP
        SellEntryOutcome.sendAttempted = 2 ∧
     ∃ sigs : List (String × String),
       (sellBundleFast
          [⟨"creator", ⟨0⟩⟩, ⟨"bundle1", ⟨1⟩⟩, ⟨"bundle2", ⟨2⟩⟩]
          ⟨200, none,
            [⟨"creator", some "tx1", none⟩,
             ⟨"bundle1", none, some "insufficient balance"⟩,
             ⟨"bundle2", some "tx3", none⟩],
            ⟨2, 3, 41⟩⟩
          (fun n => .ok (String.append "sig-" n))).fst = .ok (some sigs) ∧
       sigs.length = 2) := by
  have h := sellBundleFast_attempts_exactly_built_entries
    [⟨"creator", ⟨0⟩⟩, ⟨"bundle1", ⟨1⟩⟩, ⟨"bundle2", ⟨2⟩⟩]
    ⟨200, none,
      [⟨"creator", some "tx1", none⟩,
       ⟨"bundle1", none, some "insufficient balance"⟩,
       ⟨"bundle2", some "tx3", none⟩],
      ⟨2, 3, 41⟩⟩
    (fun n => .ok (String.append "sig-" n))
    rfl (by decide) (fun n => ⟨String.append "sig-" n, rfl⟩)
  refine ⟨rfl, h.1, ?_, ?_, ?_⟩
  · simpa using h.2.1
  · simpa using h.2.2.1
  · simpa using h.2.2.2

/-! ### Batch transfer (`transfer.js` lines 157-218) and multi-mint claim
(`src/unnamed/part_000` lines 139-186) -/

/-- One recipient line of the batch-transfer input: target address and SOL
amount. -/
structure Recipient where
  address : String
  amount : ℚ
deriving DecidableEq, Repr

/-- The external world seen by one batch-transfer entry: its build
response, its send result and its confirmation result (a thrown
confirmation is caught by the same per-entry catch as the send). -/
structure TransferEnv where
  resp : Recipient → BuildResponse
  sendRes : Recipient → Except String String
  confirmRes : Recipient → Except String Unit

/-- What happened to one batch-transfer entry. -/
inductive TransferOutcome
  | apiError (err : Option String)
  | thrownCaught (msg : String)
  | success (sig : String)
deriving DecidableEq, Repr

/-- Whether the entry counted toward the final success tally. -/
def TransferOutcome.isSuccess : TransferOutcome → Bool
  | .success _ => true
  | _ => false

/--
The body of the `for (const recipient of recipients)` loop of
`batchTransfer`: a non-200 build response logs the error and moves on; a
throw from send or confirmation is caught inside the loop; a confirmed
send increments the success count and the total.
-/
def processTransferEntry (env : TransferEnv) (r : Recipient) :
    TransferOutcome :=
  if (env.resp r).status ≠ 200 then .apiError (env.resp r).error
  else
    match env.sendRes r with
    | .error m => .thrownCaught m
    | .ok sig =>
      match env.confirmRes r with
      | .error m => .thrownCaught m
      | .ok _ => .success sig

/--
`batchTransfer`: process the recipients one after another and print, at
the end, only the success count and the total SOL sent (the function
returns no aggregated error value).
-/
def batchTransfer (env : TransferEnv) (recipients : List Recipient) :
    List TransferOutcome × Nat × ℚ :=
  let results := recipients.map (processTransferEntry env)
  (results,
   results.countP TransferOutcome.isSuccess,
   ((recipients.filter
       (fun r => (processTransferEntry env r).isSuccess)).map
     Recipient.amount).sum)

/-- One entry of the claim-all response: a mint with either an error text
or a built transaction plus its vault statistics. -/
structure ClaimAllEntry where
  mint : String
  error : Option String
  transaction : Option String
  vaultBalance : ℚ
  feeSharing : Bool
deriving DecidableEq, Repr

/-- What happened to one multi-mint claim entry. -/
inductive ClaimEntryOutcome
  | entryError (mint : String)
  | sendFailed (mint msg : String)
  | sent (mint sig : String)
deriving DecidableEq, Repr

/--
The body of the `for (const txResult of result.transactions)` loop of
`claimMultipleMints`: an entry with a truthy `error` field is logged and
skipped; otherwise its transaction is signed and sent (`sendRes`, keyed by
mint; a throw from send or the awaited confirmation is caught by the same
per-entry catch).
-/
def processClaimEntry (sendRes : String → Except String String)
    (e : ClaimAllEntry) : ClaimEntryOutcome :=
  if jsTruthy e.error then .entryError e.mint
  else
    match sendRes e.mint with
    | .error m => .sendFailed e.mint m
    | .ok sig => .sent e.mint sig

/-- The sequential loop of `claimMultipleMints` over the response entries. -/
def claimMultipleMints (sendRes : String → Except String String)
    (entries : List ClaimAllEntry) : List ClaimEntryOutcome :=
  entries.map (processClaimEntry sendRes)

/--
C7: in the batch flows (batch transfer, multi-mint claim, bundle sell) the
entries are processed strictly sequentially — the outcome list of a
concatenated input is the concatenation of the outcome lists, so earlier
entries are finished before later ones begin and a failure among the
earlier entries never suppresses the later ones; every entry yields
exactly one outcome that depends only on that entry; and the final report
of the batch transfer is only the count of successes (with the summed
amounts), not an aggregated error value.
-/
theorem batch_flows_process_every_entry_in_order
    (env : TransferEnv) (sendRes : String → Except String String)
    (accounts : List SellAccount) :
    (∀ xs ys : List Recipient,
      (batchTransfer env (xs ++ ys)).fst
        = (batchTransfer env xs).fst ++ (batchTransfer env ys).fst) ∧
    (∀ rs : List Recipient,
      (batchTransfer env rs).fst.length = rs.length ∧
      (∀ i : Fin rs.length,
        (batchTransfer env rs).fst.get (i.cast (by simp [batchTransfer]))
          = processTransferEntry env (rs.get i)) ∧
      (batchTransfer env rs).snd.fst
        = (batchTransfer env rs).fst.countP TransferOutcome.isSuccess) ∧
    (∀ xs ys : List ClaimAllEntry,
      claimMultipleMints sendRes (xs ++ ys)
        = claimMultipleMints sendRes xs ++ claimMultipleMints sendRes ys) ∧
    (∀ es : List ClaimAllEntry,
      (claimMultipleMints sendRes es).length = es.length) ∧
    (∀ xs ys : List SellTxEntry,
      sellBundleLoop accounts sendRes (xs ++ ys)
        = sellBundleLoop accounts sendRes xs
            ++ sellBundleLoop accounts sendRes ys) ∧
    (∀ es : List SellTxEntry,
      (sellBundleLoop accounts sendRes es).length = es.length) := by
  refine ⟨?_, ?_, ?_, ?_, ?_, ?_⟩
  · intro xs ys; simp [batchTransfer]
  · intro rs
    refine ⟨by simp [batchTransfer], ?_, by simp [batchTransfer]⟩
    intro i
    simp [batchTransfer]
  · intro xs ys; simp [claimMultipleMints]
  · intro es; simp [claimMultipleMints]
  · intro xs ys; simp [sellBundleLoop]
  · intro es; simp [sellBundleLoop]

/-! ### WebSocket listener (`websocket.js`) -/

/-- An incoming WebSocket frame after JSON parsing: the two discriminator
fields and the payload fields the display handlers read. -/
structure WsFrame where
  type : Option String
  txType : Option String
  mint : Option String
  name : Option String
  symbol : Option String
  solAmount : Option ℚ
  marketCapSol : Option ℚ
deriving DecidableEq, Repr

/-- The handler a frame is dispatched to. -/
inductive WsAction
  | systemConnected
  | systemSubscribed
  | systemUnsubscribed
  | systemError
  | displayNewToken (mint : Option String)
  | displayBuy (mint : Option String)
  | displaySell (mint : Option String)
  | ignored
deriving DecidableEq, Repr

/--
`handleTradeEvent` (`websocket.js` lines 139-170): dispatch on the
`txType` field to one of the three console display handlers; a frame with
any other (or no) `txType` falls through every branch and is ignored.
-/
def handleTradeEvent (f : WsFrame) : WsAction :=
  if f.txType = some "create" then .displayNewToken f.mint
  else if f.txType = some "buy" then .displayBuy f.mint
  else if f.txType = some "sell" then .displaySell f.mint
  else .ignored

/--
The message handler of `main` (`websocket.js` lines 68-96): the `type`
switch consumes the four system message kinds and returns; every other
frame is passed to `handleTradeEvent`.
-/
def handleWsFrame (f : WsFrame) : WsAction :=
  match f.type with
  | some "connected" => .systemConnected
  | some "subscribed" => .systemSubscribed
  | some "unsubscribed" => .systemUnsubscribed
  | some "error" => .systemError
  | _ => handleTradeEvent f

/-- The scripted frame sequence of the C5 scenario: a connection
confirmation, a subscription acknowledgement, then one token-creation
event with mint "X". -/
def scriptedFrames : List WsFrame :=
  [{ type := some "connected", txType := none, mint := none, name := none,
     symbol := none, solAmount := none, marketCapSol := none },
   { type := some "subscribed", txType := none, mint := none, name := none,
     symbol := none, solAmount := none, marketCapSol := none },
   { type := none, txType := some "create", mint := some "X",
     name := some "T", symbol := some "TT", solAmount := some (6/5),
     marketCapSol := some 10 }]

/--
C5: the message handler consumes `connected`, `subscribed`,
`unsubscribed` and `error` frames as system messages (no trade handling),
dispatches remaining frames on `txType` to exactly one display handler per
frame, and silently ignores a frame matching neither discriminator.  On
the scripted sequence the actions are exactly one system-connected, one
system-subscribed and one new-token display carrying mint "X".
-/
theorem ws_dispatch_scripted_sequence :
    scriptedFrames.map handleWsFrame
      = [.systemConnected, .systemSubscribed, .displayNewToken (some "X")] ∧
    ((scriptedFrames.map handleWsFrame).countP
        (fun a => a = WsAction.displayNewToken (some "X")) = 1) ∧
    (∀ f : WsFrame,
      f.type ∉ [some "connected", some "subscribed", some "unsubscribed",
        some "error"] →
      f.txType ∉ [some "create", some "buy", some "sell"] →
      handleWsFrame f = .ignored) := by
  refine ⟨by decide, by decide, ?_⟩
  intro f htype htx
  have h1 : f.txType ≠ some "create" := by intro h; exact htx (by simp [h])
  have h2 : f.txType ≠ some "buy" := by intro h; exact htx (by simp [h])
  have h3 : f.txType ≠ some "sell" := by intro h; exact htx (by simp [h])
  have ht : handleTradeEvent f = .ignored := by
    simp [handleTradeEvent, h1, h2, h3]
  cases hf : f.type with
  | none => simpa [handleWsFrame, hf] using ht
  | some s =>
    have hs1 : s ≠ "connected" := by intro h; exact htype (by simp [hf, h])
    have hs2 : s ≠ "subscribed" := by intro h; exact htype (by simp [hf, h])
    have hs3 : s ≠ "unsubscribed" := by intro h; exact htype (by simp [hf, h])
    have hs4 : s ≠ "error" := by intro h; exact htype (by simp [hf, h])
    simp only [handleWsFrame, hf]
    split
    · simp_all
    · simp_all
    · simp_all
    · simp_all
    · exact ht

/-- Witness for C5: an unmatched frame (no `type`, unknown `txType`) is
ignored. -/
theorem ws_dispatch_scripted_sequence_witness :
    ({ type := none, txType := some "swap", mint := some "Y", name := none,
       symbol := none, solAmount := none, marketCapSol := none } :
        WsFrame).type
      ∉ [some "connected", some "subscribed", some "unsubscribed",
        some "error"] ∧
    ({ type := none, txType := some "swap", mint := some "Y", name := none,
       symbol := none, solAmount := none, marketCapSol := none } :
        WsFrame).txType
      ∉ [some "create", some "buy", some "sell"] ∧
    handleWsFrame
      { type := none, txType := some "swap", mint := some "Y", name := none,
        symbol := none, solAmount := none, marketCapSol := none }
      = .ignored :=
  ⟨by decide, by decide,
   ws_dispatch_scripted_sequence.2.2
     { type := none, txType := some "swap", mint := some "Y", name := none,
       symbol := none, solAmount := none, marketCapSol := none }
     (by decide) (by decide)⟩

/-- The configuration of the WebSocket listener: the monitored token mints
and watched wallets. -/
structure WsConfig where
  tokenMints : List String
  watchWallets : List String
deriving DecidableEq, Repr

/-- A control frame sent over the socket: a method name with an optional
key list. -/
structure ControlMsg where
  method : String
  keys : Option (List String)
deriving DecidableEq, Repr

/--
The subscribe messages sent in the `open` handler (`websocket.js` lines
37-65): always the new-token feed, the token-trade feed only when the
configured mint list is non-empty, the account-trade feed only when the
configured wallet list is non-empty.
-/
def connectSubscribeMessages (c : WsConfig) : List ControlMsg :=
  [{ method := "subscribeNewToken", keys := none }]
  ++ (if 0 < c.tokenMints.length then
        [{ method := "subscribeTokenTrade", keys := some c.tokenMints }]
      else [])
  ++ (if 0 < c.watchWallets.length then
        [{ method := "subscribeAccountTrade", keys := some c.watchWallets }]
      else [])

/-- A step of the SIGINT handler: sending one control frame, or scheduling
the socket close and process exit after a delay in milliseconds. -/
inductive ShutdownStep
  | sendMsg (m : ControlMsg)
  | scheduleCloseAfterMs (ms : Nat)
deriving DecidableEq, Repr

/--
The SIGINT handler (`websocket.js` lines 109-133): send the unsubscribe
frames mirroring the connect-time subscriptions, then schedule the close
and exit with `setTimeout(..., 500)` — with no read of any acknowledgement
in between.
-/
def sigintHandlerSteps (c : WsConfig) : List ShutdownStep :=
  [.sendMsg { method := "unsubscribeNewToken", keys := none }]
  ++ (if 0 < c.tokenMints.length then
        [.sendMsg { method := "unsubscribeTokenTrade",
                    keys := some c.tokenMints }]
      else [])
  ++ (if 0 < c.watchWallets.length then
        [.sendMsg { method := "unsubscribeAccountTrade",
                    keys := some c.watchWallets }]
      else [])
  ++ [.scheduleCloseAfterMs 500]

/-- The unsubscribe counterpart of a subscribe control frame. -/
def unsubscribeOf (m : ControlMsg) : ControlMsg :=
  { method := String.append "un" m.method, keys := m.keys }

/--
C8: on SIGINT the client sends exactly one unsubscribe frame for each
subscription it requested at connect time (always the new-token feed, the
token-trade feed only for a non-empty mint list, the account-trade feed
only for a non-empty wallet list, with the same key lists), awaits no
acknowledgement between those sends, and as its final step schedules the
socket close and process exit after a fixed 500 millisecond delay.
-/
theorem sigint_unsubscribes_then_schedules_close (c : WsConfig) :
    sigintHandlerSteps c
      = (connectSubscribeMessages c).map
          (fun m => ShutdownStep.sendMsg (unsubscribeOf m))
        ++ [.scheduleCloseAfterMs 500] ∧
    (sigintHandlerSteps c).getLast? = some (.scheduleCloseAfterMs 500) := by
  constructor
  · by_cases h1 : 0 < c.tokenMints.length <;>
      by_cases h2 : 0 < c.watchWallets.length <;>
        simp [sigintHandlerSteps, connectSubscribeMessages, unsubscribeOf,
          h1, h2] <;> decide
  · by_cases h1 : 0 < c.tokenMints.length <;>
      by_cases h2 : 0 < c.watchWallets.length <;>
        simp [sigintHandlerSteps, h1, h2]

/-! ### Automated claiming scheduler (`claim-fees.js` lines 108-123,
`src/unnamed/part_000` lines 253-266) -/

/-- The millisecond period handed to `setInterval`:
`intervalHours * 60 * 60 * 1000`. -/
def intervalMsOfHours (intervalHours : Nat) : Nat :=
  intervalHours * 60 * 60 * 1000

/--
The start time (in milliseconds from the call of `automatedClaiming`) of
the k-th claim invocation: the workflow runs immediately (`await
claimFees()`), then `setInterval` fires it again after every period.  The
schedule consults nothing but the clock — in particular not whether a
previous claim is still running.
-/
def automatedClaimingStart (intervalHours k : Nat) : Nat :=
  k * intervalMsOfHours intervalHours

/--
C6: started with a positive interval of I milliseconds, the scheduler
invokes the claim workflow exactly once immediately (invocation 0 at time
0) and exactly once more when I elapses (invocation 1 at time I, and no
other invocation starts at or before I); distinct invocations never
coincide (none duplicated); and because the schedule ignores claim
duration, a claim slower than the period is still running when the next
tick starts — both invocations overlap at time I, with no guard against
that.
-/
theorem automatedClaiming_immediate_then_once_per_interval
    (intervalHours : Nat) (h : 0 < intervalHours) :
    automatedClaimingStart intervalHours 0 = 0 ∧
    automatedClaimingStart intervalHours 1
      = intervalMsOfHours intervalHours ∧
    (∀ k, automatedClaimingStart intervalHours k
        ≤ intervalMsOfHours intervalHours ↔ k ≤ 1) ∧
    Function.Injective (automatedClaimingStart intervalHours) ∧
    (∀ dur, intervalMsOfHours intervalHours < dur →
      (automatedClaimingStart intervalHours 0
          ≤ intervalMsOfHours intervalHours ∧
        intervalMsOfHours intervalHours
          < automatedClaimingStart intervalHours 0 + dur) ∧
      (automatedClaimingStart intervalHours 1
          ≤ intervalMsOfHours intervalHours ∧
        intervalMsOfHours intervalHours
          < automatedClaimingStart intervalHours 1 + dur)) := by
  have hI : 0 < intervalMsOfHours intervalHours := by
    simp [intervalMsOfHours]
    omega
  refine ⟨by simp [automatedClaimingStart], by simp [automatedClaimingStart], ?_, ?_, ?_⟩
  · intro k
    match k with
    | 0 => simp [automatedClaimingStart]
    | 1 => simp [automatedClaimingStart]
    | k + 2 =>
      simp only [automatedClaimingStart, Nat.succ_mul]
      omega
  · intro k1 k2 hk
    exact Nat.eq_of_mul_eq_mul_right hI hk
  · intro dur hdur
    refine ⟨⟨by simp [automatedClaimingStart], ?_⟩,
            ⟨by simp [automatedClaimingStart], ?_⟩⟩
    · simp only [automatedClaimingStart, Nat.zero_mul]
      omega
    · simp only [automatedClaimingStart, Nat.one_mul]
      omega

/-- Witness for C6 at the default 24-hour interval with a claim lasting
one millisecond longer than the period. -/
theorem automatedClaiming_immediate_then_once_per_interval_witness :
    0 < 24 ∧
    (automatedClaimingStart 24 0 = 0 ∧
     automatedClaimingStart 24 1 = intervalMsOfHours 24 ∧
     (∀ k, automatedClaimingStart 24 k ≤ intervalMsOfHours 24 ↔ k ≤ 1) ∧
     Function.Injective (automatedClaimingStart 24) ∧
     (∀ dur, intervalMsOfHours 24 < dur →
       (automatedClaimingStart 24 0 ≤ intervalMsOfHours 24 ∧
         intervalMsOfHours 24 < automatedClaimingStart 24 0 + dur) ∧
       (automatedClaimingStart 24 1 ≤ intervalMsOfHours 24 ∧
         intervalMsOfHours 24 < automatedClaimingStart 24 1 + dur))) :=
  ⟨by decide, automatedClaiming_immediate_then_once_per_interval 24 (by decide)⟩

/-! ### Sniper filter (`checkCriteria`, `src/unnamed/part_003` lines
167-188) -/

/-- The `SETTINGS` record of the sniper script (fields read anywhere in the
script). -/
structure SniperSettings where
  buyAmountSol : ℚ
  slippage : ℚ
  priorityFee : ℚ
  maxMarketCapSol : ℚ
  minInitialBuySol : ℚ
  watchCreators : List String
  cooldownMs : Nat
  maxConcurrentBuys : Nat
deriving DecidableEq, Repr

/-- The literal `SETTINGS` value of the script. -/
def SETTINGS : SniperSettings :=
  { buyAmountSol := 1/100, slippage := 20, priorityFee := 1/1000,
    maxMarketCapSol := 50, minInitialBuySol := 1/2,
    watchCreators := [], cooldownMs := 5000, maxConcurrentBuys := 1 }

/-- The fields of a token-creation event that `checkCriteria` reads.  The
`marketCapSol` field may be absent or null (`none`). -/
structure CreateEvent where
  traderPublicKey : String
  solAmount : ℚ
  marketCapSol : Option ℚ
deriving DecidableEq, Repr

/-- The result of the criteria check (the source couples each failure with
a console reason string). -/
inductive CriteriaResult
  | pass
  | failMarketCap
  | failInitialBuy
  | failCreatorNotWhitelisted
deriving DecidableEq, Repr

/-- The first condition of `checkCriteria`:
`marketCapSol && marketCapSol > SETTINGS.maxMarketCapSol` — an absent,
null or zero market cap is falsy and never rejects. -/
def mcapRejects (s : SniperSettings) : Option ℚ → Bool
  | none => false
  | some v => decide (v ≠ 0) && decide (s.maxMarketCapSol < v)

/--
`checkCriteria`: reject on a truthy market cap above the maximum, then on
an initial buy below the minimum, then — only when the creator whitelist
is non-empty — on a creator outside the whitelist; otherwise pass.
-/
def checkCriteria (s : SniperSettings) (e : CreateEvent) : CriteriaResult :=
  if mcapRejects s e.marketCapSol then .failMarketCap
  else if e.solAmount < s.minInitialBuySol then .failInitialBuy
  else if 0 < s.watchCreators.length ∧ e.traderPublicKey ∉ s.watchCreators
    then .failCreatorNotWhitelisted
  else .pass

/--
C10: an event whose `marketCapSol` is absent, null or zero passes the
market-cap criterion regardless of the configured maximum — the check
rejects exactly the events with a truthy market cap strictly greater than
the maximum; an event whose `solAmount` is below the configured minimum
never passes; and with an empty creator whitelist no event is rejected for
its creator.
-/
theorem checkCriteria_truthiness (s : SniperSettings) (e : CreateEvent) :
    (e.marketCapSol = none ∨ e.marketCapSol = some 0 →
      checkCriteria s e ≠ .failMarketCap) ∧
    (checkCriteria s e = .failMarketCap ↔
      ∃ v, e.marketCapSol = some v ∧ v ≠ 0 ∧ s.maxMarketCapSol < v) ∧
    (e.solAmount < s.minInitialBuySol → checkCriteria s e ≠ .pass) ∧
    (s.watchCreators = [] →
      checkCriteria s e ≠ .failCreatorNotWhitelisted) := by
  have hmc : mcapRejects s e.marketCapSol = true ↔
      ∃ v, e.marketCapSol = some v ∧ v ≠ 0 ∧ s.maxMarketCapSol < v := by
    cases hv : e.marketCapSol with
    | none => simp [mcapRejects]
    | some v => simp [mcapRejects]
  refine ⟨?_, ?_, ?_, ?_⟩
  · intro hv
    have hfalse : mcapRejects s e.marketCapSol = false := by
      rcases hv with hv | hv <;> simp [mcapRejects, hv]
    simp only [checkCriteria, hfalse, Bool.false_eq_true, if_false]
    split
    · simp
    · split
      · simp
      · simp
  · constructor
    · intro hres
      apply hmc.mp
      by_contra hn
      have hfalse : mcapRejects s e.marketCapSol = false := by
        cases hb : mcapRejects s e.marketCapSol with
        | false => rfl
        | true => exact absurd (hmc.mp hb) (by exact fun hx => hn (hmc.mpr hx ▸ rfl) )
      simp [checkCriteria, hfalse] at hres
      revert hres
      split
      · simp
      · split
        · simp
        · simp
    · intro hex
      have := hmc.mpr hex
      simp [checkCriteria, this]
  · intro hlt
    by_cases hb : mcapRejects s e.marketCapSol <;>
      simp [checkCriteria, hb, hlt]
  · intro hw
    by_cases hb : mcapRejects s e.marketCapSol
    · simp [checkCriteria, hb, hw]
    · simp only [checkCriteria, hb, Bool.false_eq_true, if_false, hw]
      split
      · simp
      · simp [hw]

/-- Witness for C10: with the script's literal settings, an event with a
zero market cap and an initial buy of 0.25 SOL is not rejected for market
cap, is rejected overall (initial buy below the 0.5 SOL minimum), and is
never rejected for its creator (empty whitelist). -/
theorem checkCriteria_truthiness_witness :
    (checkCriteria SETTINGS ⟨"creatorA", 1/4, some 0⟩ ≠ .failMarketCap) ∧
    (checkCriteria SETTINGS ⟨"creatorA", 1/4, some 0⟩ = .failMarketCap ↔
      ∃ v, (some (0:ℚ)) = some v ∧ v ≠ 0 ∧ SETTINGS.maxMarketCapSol < v) ∧
    (checkCriteria SETTINGS ⟨"creatorA", 1/4, some 0⟩ ≠ .pass) ∧
    (checkCriteria SETTINGS ⟨"creatorA", 1/4, some 0⟩
      ≠ .failCreatorNotWhitelisted) := by
  have h := checkCriteria_truthiness SETTINGS ⟨"creatorA", 1/4, some 0⟩
  exact ⟨h.1 (Or.inr rfl), h.2.1, h.2.2.1 (by norm_num [SETTINGS]),
    h.2.2.2 rfl⟩

end PumpDev
